import Mathlib

/-!
Verification development for the medical report simplifier's core pipeline:
the string-similarity engine (`src/services/similarityMatcher.js`), the test
normalizer (`src/services/testNormalizer.js`), and the guardrail validator
(`src/services/guardrailService.js`), together with the static knowledge base
(`src/knowledgeBase.js`). JavaScript numbers are modelled as rationals,
JS dynamic values as an explicit sum type, and JS `Map`/object lookups as
association lists with the same overwrite semantics.
-/

namespace MedRep

/-- A JavaScript dynamic value, as far as the pipeline inspects one:
a number, a string, `null`, or `undefined`. -/
inductive JSVal where
  | vnum (q : ℚ)
  | vstr (s : String)
  | vnull
  | vundef
deriving DecidableEq, Repr

/-- ASCII lower-casing of one character (model of `String.prototype.toLowerCase`
on the ASCII inputs this pipeline handles). -/
def asciiLower (c : Char) : Char :=
  if 'A' ≤ c ∧ c ≤ 'Z' then Char.ofNat (c.toNat + 32) else c

/-- Model of JS `s.toLowerCase()`. -/
def lower (s : String) : String := ⟨s.data.map asciiLower⟩

/-- Character-list test: does `p` start the list `h`? -/
def startsWithL : List Char → List Char → Bool
  | [], _ => true
  | _ :: _, [] => false
  | p :: ps, h :: hs => p = h && startsWithL ps hs

/-- Character-list test: does `pat` occur contiguously inside `hay`? -/
def substrAuxL (pat : List Char) : List Char → Bool
  | [] => startsWithL pat []
  | h :: hs => startsWithL pat (h :: hs) || substrAuxL pat hs

/-- Model of JS `s.includes(pat)` (contiguous substring test). -/
def containsSubstr (s pat : String) : Bool := substrAuxL pat.data s.data

/-- Remove duplicates keeping the first occurrence (JS `Set` insertion order). -/
def dedupFirst {α : Type} [DecidableEq α] : List α → List α
  | [] => []
  | x :: xs => x :: dedupFirst (xs.filter (fun y => y ≠ x))
termination_by l => l.length
decreasing_by
  simp only [List.length_cons]
  exact Nat.lt_succ_of_le (List.length_filter_le _ _)

/-- JS `\s` whitespace class (the ASCII part, which is all the pipeline meets). -/
def isJsWs (c : Char) : Bool :=
  c = ' ' || c = '\t' || c = '\n' || c = '\r' || c = Char.ofNat 11 || c = Char.ofNat 12

/-- Helper for `splitWs`: accumulates the current token (reversed). -/
def splitWsAux : List Char → List Char → List (List Char)
  | [], acc => [acc.reverse]
  | c :: rest, acc =>
    if isJsWs c then acc.reverse :: splitWsAux (rest.dropWhile isJsWs) []
    else splitWsAux rest (c :: acc)
termination_by l _ => l.length
decreasing_by
  · simp only [List.length_cons]
    exact Nat.lt_succ_of_le (List.Sublist.length_le (List.dropWhile_sublist _))
  · simp

/-- Model of JS `s.split(/\s+/)`: split on whitespace runs; a leading or
trailing run contributes an empty token, exactly as in JS. -/
def splitWs (s : String) : List String := (splitWsAux s.data []).map (fun l => ⟨l⟩)

/-- Lookup in an association list with JS `Map.set` overwrite semantics
(the last binding of a key wins). -/
def mapGet (ps : List (String × String)) (k : String) : Option String :=
  List.lookup k ps.reverse

/-- JS `a || b` on nullable lookups. -/
def jsOr {α : Type} : Option α → Option α → Option α
  | some x, _ => some x
  | none, b => b

/-- A reference range `{low, high}` from the knowledge base. -/
structure RefRange where
  low : ℚ
  high : ℚ
deriving DecidableEq, Repr

/-- One knowledge-base entry (`src/knowledgeBase.js`), restricted to the fields
the verified pipeline reads: `ref_range`, `normalRange`, `physicalLimits`,
`name`, `unit`, `aliases`. -/
structure KBEntry where
  ref_range : Option RefRange
  normalRange : Option RefRange
  physicalLimits : Option (ℚ × ℚ)
  name : String
  unit : String
  aliases : List String
deriving DecidableEq, Repr

/-- A knowledge base: the ordered key/value pairs of the JS object. -/
abbrev KB := List (String × KBEntry)

/-- The classic Levenshtein recurrence on character lists. Both
`SimilarityMatcher.levenshteinDistance` and
`GuardrailService.levenshteinDistance` fill the standard DP matrix
`matrix[i][j] = dist(str2[0..i), str1[0..j))` with this recurrence
(diagonal move on equal characters, otherwise 1 + min of substitution,
insertion, deletion); this is that function, written recursively. -/
def levDistL : List Char → List Char → ℕ
  | [], ys => ys.length
  | x :: xs, [] => (x :: xs).length
  | x :: xs, y :: ys =>
    if x = y then levDistL xs ys
    else 1 + min (levDistL xs ys) (min (levDistL (x :: xs) ys) (levDistL xs (y :: ys)))
termination_by xs ys => xs.length + ys.length
decreasing_by
  all_goals simp only [List.length_cons]
  all_goals omega

/-- Shared `levenshteinDistance(str1, str2)` of the two service classes. -/
def levenshteinDistance (s1 s2 : String) : ℕ := levDistL s1.data s2.data

/-- The static catalog `MEDICAL_DATA` of `src/knowledgeBase.js`, in source
order, restricted to the fields the verified pipeline reads. Entries from
`ast` on define only `ref_range` (no `normalRange`, no `physicalLimits`),
exactly as in the source. -/
def MEDICAL_DATA : KB := [
  ("hemoglobin",
    { ref_range := some ⟨12, 15⟩, normalRange := some ⟨12, 15⟩,
      physicalLimits := some (0, 30), name := "Hemoglobin", unit := "g/dL",
      aliases := ["hgb", "hb", "hemglobin", "heoglobin", "hemglobin"] }),
  ("wbc",
    { ref_range := some ⟨4000, 11000⟩, normalRange := some ⟨4000, 11000⟩,
      physicalLimits := some (0, 100000), name := "WBC", unit := "/uL",
      aliases := ["white blood cells", "white blood cell count", "wbc count"] }),
  ("White Blood Cell Count",
    { ref_range := some ⟨4000, 11000⟩, normalRange := some ⟨4000, 11000⟩,
      physicalLimits := some (0, 100000), name := "WBC", unit := "/uL",
      aliases := ["white blood cells", "white blood cell count", "wbc count"] }),
  ("rbc",
    { ref_range := some ⟨4.2, 5.4⟩, normalRange := some ⟨4.2, 5.4⟩,
      physicalLimits := some (0, 12), name := "RBC", unit := "mil/uL",
      aliases := ["red blood cells", "red blood cell count", "rbc count"] }),
  ("platelet count",
    { ref_range := some ⟨150000, 450000⟩, normalRange := some ⟨150000, 450000⟩,
      physicalLimits := some (0, 2000000), name := "Platelet Count", unit := "/uL",
      aliases := ["platelets", "plt", "platlet", "platelet"] }),
  ("hematocrit",
    { ref_range := some ⟨36, 46⟩, normalRange := some ⟨36, 46⟩,
      physicalLimits := some (0, 100), name := "Hematocrit", unit := "%",
      aliases := ["hct", "packed cell volume"] }),
  ("glucose",
    { ref_range := some ⟨70, 100⟩, normalRange := some ⟨70, 100⟩,
      physicalLimits := some (0, 2000), name := "Glucose", unit := "mg/dL",
      aliases := ["blood glucose", "sugar", "glucse", "fasting glucose"] }),
  ("sodium",
    { ref_range := some ⟨135, 145⟩, normalRange := some ⟨135, 145⟩,
      physicalLimits := some (100, 200), name := "Sodium", unit := "mEq/L",
      aliases := ["na", "sodim", "serum sodium"] }),
  ("potassium",
    { ref_range := some ⟨3.5, 5⟩, normalRange := some ⟨3.5, 5⟩,
      physicalLimits := some (0, 15), name := "Potassium", unit := "mEq/L",
      aliases := ["k", "potasium", "serum potassium"] }),
  ("creatinine",
    { ref_range := some ⟨0.6, 1.2⟩, normalRange := some ⟨0.6, 1.2⟩,
      physicalLimits := some (0, 50), name := "Creatinine", unit := "mg/dL",
      aliases := ["creat", "cretinine", "serum creatinine"] }),
  ("bun",
    { ref_range := some ⟨7, 20⟩, normalRange := some ⟨7, 20⟩,
      physicalLimits := some (0, 300), name := "BUN", unit := "mg/dL",
      aliases := ["blood urea nitrogen", "urea nitrogen"] }),
  ("chloride",
    { ref_range := some ⟨98, 107⟩, normalRange := some ⟨98, 107⟩,
      physicalLimits := some (50, 200), name := "Chloride", unit := "mEq/L",
      aliases := ["cl", "serum chloride"] }),
  ("co2",
    { ref_range := some ⟨22, 29⟩, normalRange := some ⟨22, 29⟩,
      physicalLimits := some (0, 100), name := "CO2", unit := "mEq/L",
      aliases := ["carbon dioxide", "bicarbonate", "hco3"] }),
  ("total cholesterol",
    { ref_range := some ⟨0, 200⟩, normalRange := some ⟨0, 200⟩,
      physicalLimits := some (0, 1000), name := "Total Cholesterol", unit := "mg/dL",
      aliases := ["cholesterol", "chol", "total chol", "cholesterol_total"] }),
  ("ldl",
    { ref_range := some ⟨0, 100⟩, normalRange := some ⟨0, 100⟩,
      physicalLimits := some (0, 800), name := "LDL", unit := "mg/dL",
      aliases := ["ldl cholesterol", "bad cholesterol", "low density lipoprotein"] }),
  ("hdl",
    { ref_range := some ⟨40, 999⟩, normalRange := some ⟨40, 999⟩,
      physicalLimits := some (0, 300), name := "HDL", unit := "mg/dL",
      aliases := ["hdl cholesterol", "good cholesterol", "high density lipoprotein"] }),
  ("triglycerides",
    { ref_range := some ⟨0, 150⟩, normalRange := some ⟨0, 150⟩,
      physicalLimits := some (0, 5000), name := "Triglycerides", unit := "mg/dL",
      aliases := ["trig", "triglyceride"] }),
  ("ast",
    { ref_range := some ⟨10, 40⟩, normalRange := none, physicalLimits := none,
      name := "AST", unit := "U/L",
      aliases := ["aspartate aminotransferase", "sgot"] }),
  ("alt",
    { ref_range := some ⟨7, 56⟩, normalRange := none, physicalLimits := none,
      name := "ALT", unit := "U/L",
      aliases := ["alanine aminotransferase", "sgpt"] }),
  ("total bilirubin",
    { ref_range := some ⟨0.2, 1.2⟩, normalRange := none, physicalLimits := none,
      name := "Total Bilirubin", unit := "mg/dL",
      aliases := ["bilirubin", "total bili"] }),
  ("albumin",
    { ref_range := some ⟨3.5, 5⟩, normalRange := none, physicalLimits := none,
      name := "Albumin", unit := "g/dL",
      aliases := ["serum albumin"] }),
  ("total protein",
    { ref_range := some ⟨6, 8.3⟩, normalRange := none, physicalLimits := none,
      name := "Total Protein", unit := "g/dL",
      aliases := ["protein", "serum protein"] }),
  ("tsh",
    { ref_range := some ⟨0.4, 4⟩, normalRange := none, physicalLimits := none,
      name := "TSH", unit := "mIU/L",
      aliases := ["thyroid stimulating hormone", "thyrotropin"] }),
  ("free t4",
    { ref_range := some ⟨0.8, 1.8⟩, normalRange := none, physicalLimits := none,
      name := "Free T4", unit := "ng/dL",
      aliases := ["free thyroxine", "ft4"] }),
  ("free t3",
    { ref_range := some ⟨2.3, 4.2⟩, normalRange := none, physicalLimits := none,
      name := "Free T3", unit := "pg/mL",
      aliases := ["free triiodothyronine", "ft3"] }),
  ("hba1c",
    { ref_range := some ⟨0, 5.7⟩, normalRange := none, physicalLimits := none,
      name := "HbA1c", unit := "%",
      aliases := ["a1c", "hemoglobin a1c", "glycated hemoglobin"] }),
  ("esr",
    { ref_range := some ⟨0, 20⟩, normalRange := none, physicalLimits := none,
      name := "ESR", unit := "mm/hr",
      aliases := ["erythrocyte sedimentation rate", "sed rate"] }),
  ("crp",
    { ref_range := some ⟨0, 3⟩, normalRange := none, physicalLimits := none,
      name := "CRP", unit := "mg/L",
      aliases := ["c-reactive protein", "c reactive protein"] })]

/-- An extracted test record as the guardrail sees it: `name`, `unit` and
`status` are strings and `value` is a dynamic JS value (the guardrail checks
`typeof test.value === "number"`). -/
structure TestRec where
  name : String
  value : JSVal
  unit : String
  status : String
deriving DecidableEq, Repr

/-- Printable form of a `JSVal`, used only inside warning messages (the JS
source interpolates `${test.value}`; the exact number formatting is never
inspected by any logic). -/
def jsValRepr : JSVal → String
  | .vnum q => toString q.num ++ "/" ++ toString q.den
  | .vstr s => s
  | .vnull => "null"
  | .vundef => "undefined"

namespace GuardrailService

/-- The hard-coded `physicalLimits` table of the guardrail constructor
(`guardrailService.js` lines 15-24). Note the underscore keys
`cholesterol_total` and `platelet_count`. -/
def physicalLimitsTable : List (String × ℚ × ℚ) :=
  [("hemoglobin", 0, 30), ("glucose", 0, 2000), ("cholesterol_total", 0, 1000),
   ("creatinine", 0, 50), ("wbc", 0, 100000), ("platelet_count", 0, 2000000),
   ("sodium", 100, 200), ("potassium", 0, 15)]

/-- `buildAliasMap`: the insertion sequence of the alias `Map` — for each
entry, its key, its display name (when non-empty) and each alias, all
lower-cased, mapping back to the key. Later insertions overwrite earlier
ones (JS `Map.set`), which `mapGet` models. -/
def aliasPairs (kb : KB) : List (String × String) :=
  kb.flatMap (fun p =>
    (lower p.1, p.1) ::
      ((if p.2.name ≠ "" then [(lower p.2.name, p.1)] else []) ++
        p.2.aliases.map (fun a => (lower a, p.1))))

/-- `normalizeTestName(testName)`: look the lower-cased, trimmed name up in
the alias map. -/
def normalizeTestName (kb : KB) (testName : String) : Option String :=
  mapGet (aliasPairs kb) (lower testName).trim

/-- `isValidTestStructure(test)`: all of `name`, `value`, `unit`, `status`
present and none of `undefined`, `null`, `''`. -/
def isValidTestStructure (t : TestRec) : Bool :=
  t.name ≠ "" && t.unit ≠ "" && t.status ≠ "" &&
    (match t.value with
     | .vnull => false
     | .vundef => false
     | .vstr s => s ≠ ""
     | .vnum _ => true)

/-- Lower-case and replace every character outside `[a-z0-9\s]` by a space
(`originalText.toLowerCase().replace(/[^a-z0-9\s]/g, ' ')`). -/
def normalizeText (t : String) : String :=
  ⟨(lower t).data.map (fun c =>
    if ('a' ≤ c ∧ c ≤ 'z') ∨ ('0' ≤ c ∧ c ≤ '9') ∨ isJsWs c then c else ' ')⟩

/-- `getCommonVariations(testName)`: the hard-coded variation table, falling
back to `[testName]`. -/
def getCommonVariations (testName : String) : List String :=
  (List.lookup testName
    [("hemoglobin", ["hgb", "hb", "hemglobin", "haemoglobin"]),
     ("wbc", ["white blood cell", "white blood cells", "wbc count", "leukocyte"]),
     ("rbc", ["red blood cell", "red blood cells", "rbc count", "erythrocyte"]),
     ("glucose", ["blood glucose", "sugar", "glucse", "glukose"]),
     ("creatinine", ["creat", "cretinine"]),
     ("cholesterol_total", ["cholesterol", "chol", "cholestrol"]),
     ("platelet_count", ["platelets", "plt", "platlet", "thrombocyte"])]).getD [testName]

/-- `calculateSimilarity(str1, str2)`: `1 - levenshtein / max(len1, len2)`.
(The JS version divides by zero on two empty strings; both call sites
guarantee `max ≥ 3`, and the rational model returns 1 there.) -/
def calculateSimilarity (s1 s2 : String) : ℚ :=
  1 - (levenshteinDistance s1 s2 : ℚ) / (max s1.length s2.length : ℚ)

/-- `fuzzyMatchInText(testName, text)`: some whitespace-delimited token of
`text` of length at least 3 has similarity strictly above 0.7. -/
def fuzzyMatchInText (testName text : String) : Bool :=
  (splitWs text).any (fun w =>
    decide (3 ≤ w.length) && decide ((7 : ℚ)/10 < calculateSimilarity testName w))

/-- The knowledge-base entry `isTestMentionedInOriginal` consults for the
alias pass: `this.knowledgeBase[testNameLower] ||
this.knowledgeBase[this.normalizeTestName(testName)]`. -/
def mentionLookup (kb : KB) (testName : String) : Option KBEntry :=
  jsOr (List.lookup (lower testName) kb)
    ((normalizeTestName kb testName).bind (fun k => List.lookup k kb))

/-- `isTestMentionedInOriginal(testName, originalText)`. `none` models a
missing / non-string `originalText` (the JS guard `typeof !== 'string'`);
the empty string is falsy in JS and also short-circuits to `true`. -/
def isTestMentionedInOriginal (kb : KB) (testName : String)
    (originalText : Option String) : Bool :=
  match originalText with
  | none => true
  | some t =>
    if t = "" then true
    else
      let normalizedText := normalizeText t
      let testNameLower := lower testName
      if containsSubstr normalizedText testNameLower then true
      else
        let aliasHit :=
          match mentionLookup kb testName with
          | some d => d.aliases.any (fun a => containsSubstr normalizedText (lower a))
          | none => false
        if aliasHit then true
        else if (getCommonVariations testNameLower).any
            (fun v => containsSubstr normalizedText v) then true
        else fuzzyMatchInText testNameLower normalizedText

/-- `isValueRealistic(test)`: only numeric values with an entry in the
service's own `physicalLimits` table (under the lower-cased raw name or the
alias-normalized key) are range-checked; everything else passes. -/
def isValueRealistic (kb : KB) (t : TestRec) : Bool :=
  let limits := jsOr (List.lookup (lower t.name) physicalLimitsTable)
    ((normalizeTestName kb t.name).bind (fun k => List.lookup k physicalLimitsTable))
  match limits, t.value with
  | some (mn, mx), .vnum q => decide (mn ≤ q) && decide (q ≤ mx)
  | _, _ => true

/-- The hard-coded `unitVariations` table of `isUnitValid`. -/
def unitVariationsTable : List (String × List String) :=
  [("g/dL", ["g/dl", "gm/dl", "gram/dl"]),
   ("/uL", ["/ul", "per ul", "/μL", "/microL"]),
   ("mg/dL", ["mg/dl", "mgdl"]),
   ("%", ["percent", "pct"])]

/-- `isUnitValid(test)`: pass when the catalog has no entry / no unit for the
normalized name; otherwise the unit must equal the canonical unit or one of
its listed variations (compared lower-cased). -/
def isUnitValid (kb : KB) (t : TestRec) : Bool :=
  match (normalizeTestName kb t.name).bind (fun k => List.lookup k kb) with
  | none => true
  | some d =>
    if d.unit = "" then true
    else if t.unit = d.unit then true
    else ((List.lookup d.unit unitVariationsTable).getD []).contains (lower t.unit)

/-- `isStatusConsistent(test)`: with a catalog `normalRange` and a numeric
value, the lower-cased status token must agree with where the value falls. -/
def isStatusConsistent (kb : KB) (t : TestRec) : Bool :=
  match (normalizeTestName kb t.name).bind (fun k => List.lookup k kb), t.value with
  | some d, .vnum q =>
    match d.normalRange with
    | none => true
    | some r =>
      let st := lower t.status
      if q < r.low ∧ st ≠ "low" then false
      else if q > r.high ∧ st ≠ "high" then false
      else if r.low ≤ q ∧ q ≤ r.high ∧ st ≠ "normal" then false
      else true
  | _, _ => true

/-- The structural rejection message. -/
def structureReason (name : String) : String :=
  "Invalid test structure for " ++ name

/-- The traceability rejection message. -/
def hallucinationReason (name : String) : String :=
  "Test '" ++ name ++ "' not found in original text - potential hallucination"

/-- The substring `validateTests` scans rejection reasons for to decide that
a rejection was a hallucination. -/
def hallucMarker : String := "not found in original"

/-- Result of `validateSingleTest`. -/
structure SingleResult where
  isValid : Bool
  warnings : List String
  confidence : ℚ
  rejectionReason : Option String
deriving DecidableEq, Repr

/-- `validateSingleTest(test, originalText)`: structure check, knowledge-base
check (warning ×0.7), traceability check (rejection), then value (×0.6),
unit (×0.8) and status (×0.9) warnings. -/
def validateSingleTest (kb : KB) (t : TestRec) (originalText : Option String) :
    SingleResult :=
  if isValidTestStructure t = false then
    ⟨false, [], 1, some (structureReason t.name)⟩
  else
    let kbCheck :=
      if (normalizeTestName kb t.name).isNone then
        (["Unknown test: " ++ t.name], (7 : ℚ)/10)
      else ([], 1)
    if isTestMentionedInOriginal kb t.name originalText = false then
      ⟨false, kbCheck.1, kbCheck.2, some (hallucinationReason t.name)⟩
    else
      let valCheck :=
        if isValueRealistic kb t = false then
          (["Unrealistic value for " ++ t.name ++ ": " ++ jsValRepr t.value ++
            " " ++ t.unit], (3 : ℚ)/5)
        else ([], 1)
      let unitCheck :=
        if isUnitValid kb t = false then
          (["Unexpected unit for " ++ t.name ++ ": " ++ t.unit], (4 : ℚ)/5)
        else ([], 1)
      let statusCheck :=
        if isStatusConsistent kb t = false then
          (["Status '" ++ t.status ++ "' may not match value " ++
            jsValRepr t.value ++ " for " ++ t.name], (9 : ℚ)/10)
        else ([], 1)
      ⟨true, kbCheck.1 ++ valCheck.1 ++ unitCheck.1 ++ statusCheck.1,
        kbCheck.2 * valCheck.2 * unitCheck.2 * statusCheck.2, none⟩

/-- The accumulator of the `validateTests` loop (the mutable `validation`
object, minus its final `status`/`reason`). -/
structure LoopState where
  warnings : List String
  errors : List String
  confidence : ℚ
  validated : List TestRec
  rejected : List (TestRec × String)
deriving DecidableEq, Repr

/-- The initial `validation` accumulator. -/
def initValidation : LoopState := ⟨[], [], 1, [], []⟩

/-- The accumulator update for a test that passed `validateSingleTest`: push
it onto `validated_tests`, and when it carried warnings also collect them and
multiply the batch confidence. -/
def acceptState (st : LoopState) (t : TestRec) (r : SingleResult) : LoopState :=
  if r.warnings ≠ [] then
    { st with warnings := st.warnings ++ r.warnings,
              confidence := st.confidence * r.confidence,
              validated := st.validated ++ [t] }
  else { st with validated := st.validated ++ [t] }

/-- The accumulator update for a rejected test: record it (with its reason)
in `rejected_tests` and `errors`. -/
def rejectState (st : LoopState) (t : TestRec) (r : SingleResult) : LoopState :=
  { st with rejected := st.rejected ++ [(t, r.rejectionReason.getD "")],
            errors := st.errors ++ [r.rejectionReason.getD ""] }

/-- The `for (const test of extractedTests)` loop of `validateTests`.
`Except.error (t, st)` models the early `return` on a rejection reason
containing `hallucMarker` (`reason.includes('not found in original')`). -/
def runLoop (kb : KB) (originalText : Option String) :
    List TestRec → LoopState → Except (TestRec × LoopState) LoopState
  | [], st => .ok st
  | t :: rest, st =>
    let r := validateSingleTest kb t originalText
    if r.isValid then runLoop kb originalText rest (acceptState st t r)
    else if containsSubstr (r.rejectionReason.getD "") hallucMarker then
      .error (t, rejectState st t r)
    else runLoop kb originalText rest (rejectState st t r)

/-- The full result object of `validateTests`; fields absent from the early
hallucination return (`validated_tests`, `warnings`, `errors`) are modelled
as empty there. -/
structure ValidationOutcome where
  status : String
  reason : Option String
  warnings : List String
  errors : List String
  confidence : ℚ
  validated_tests : List TestRec
  rejected_tests : List (TestRec × String)
deriving DecidableEq, Repr

/-- `validateTests(extractedTests, originalText)`: run the loop, abort the
whole batch on a hallucination, otherwise derive the final status from the
aggregate confidence and the warnings. -/
def validateTests (kb : KB) (extractedTests : List TestRec)
    (originalText : Option String) : ValidationOutcome :=
  match runLoop kb originalText extractedTests initValidation with
  | .error (t, st) =>
    ⟨"unprocessed", some ("hallucinated tests not present in input: " ++ t.name),
      [], [], 0, [], st.rejected⟩
  | .ok st =>
    if st.confidence < (3 : ℚ)/10 then
      ⟨"unprocessed", some "Overall confidence too low due to validation issues",
        st.warnings, st.errors, st.confidence, st.validated, st.rejected⟩
    else if st.confidence < (6 : ℚ)/10 then
      ⟨"low_confidence", some "Multiple validation warnings detected",
        st.warnings, st.errors, st.confidence, st.validated, st.rejected⟩
    else if st.warnings ≠ [] then
      ⟨"ok_with_warnings", none,
        st.warnings, st.errors, st.confidence, st.validated, st.rejected⟩
    else
      ⟨"ok", none, st.warnings, st.errors, st.confidence, st.validated, st.rejected⟩

/-- Modelled from the claim's wording (C3), for comparison with the code's
`isTestMentionedInOriginal`: a record is traceable exactly when its name, or
one of its catalog aliases, or some whitespace-delimited token of the text
with similarity strictly above 0.7 to the name, appears in the (case-folded)
original text. -/
def specTraceable (kb : KB) (testName text : String) : Bool :=
  let tl := lower text
  let nl := lower testName
  containsSubstr tl nl ||
    (match mentionLookup kb testName with
     | some d => d.aliases.any (fun a => containsSubstr tl (lower a))
     | none => false) ||
    (splitWs tl).any (fun w => decide ((7 : ℚ)/10 < calculateSimilarity nl w))

end GuardrailService

namespace MedicalTestNormalizer

/-- `determineStatus(value, refRange, providedStatus)` of
`src/services/testNormalizer.js`, on the numeric path (the claims concern
records with a numeric value; `parseFloat` is the identity there and the
`isNaN` early return, which yields `providedStatus || 'unknown'`, is not
taken). The source logs a mismatch with `providedStatus` but always returns
the recomputed status. -/
def determineStatus (value : ℚ) (refRange : RefRange)
    (providedStatus : Option String) : String :=
  let calculatedStatus :=
    if value < refRange.low then "low"
    else if value > refRange.high then "high"
    else "normal"
  match providedStatus with
  | _ => calculatedStatus

end MedicalTestNormalizer

namespace SimilarityMatcher

/-- `this.thresholds.testName`. -/
def thresholdTestName : ℚ := 1/2
/-- `this.thresholds.unit`. -/
def thresholdUnit : ℚ := 3/5
/-- `this.thresholds.status`. -/
def thresholdStatus : ℚ := 1/2
/-- `this.thresholds.exact`. -/
def thresholdExact : ℚ := 19/20
/-- `this.thresholds.phonetic`. -/
def thresholdPhonetic : ℚ := 4/5

/-- `this.baseStatuses`. -/
def baseStatuses : List String :=
  ["high", "low", "normal", "elevated", "decreased", "abnormal"]

/-- `this.baseUnits`. -/
def baseUnits : List String :=
  ["g/dL", "/uL", "mg/dL", "mEq/L", "U/L", "%", "mIU/L", "ng/dL", "pg/mL",
   "mm/hr", "mg/L"]

/-- The external NLP collaborators (`natural`, `fuse.js`), which are npm
dependencies outside this repository: availability flags, the phonetic
encoders, `natural`'s Levenshtein distance, and the three Fuse indexes'
search results as `(matched key, score)` lists, best first. -/
structure NlpLibs where
  naturalAvailable : Bool
  fuseAvailable : Bool
  metaphone : String → String
  soundex : String → String
  natLevenshtein : String → String → ℕ
  fuseNames : String → List (String × ℚ)
  fuseUnits : String → List (String × ℚ)
  fuseStatus : String → List (String × ℚ)

/-- `buildLookupTables`: the `(name, key)` pairs of `this.testNamesArray`,
in insertion order — for each catalog entry its key, its display name (when
non-empty) and each alias, lower-cased. -/
def testNamesArray (kb : KB) : List (String × String) :=
  kb.flatMap (fun p =>
    (lower p.1, p.1) ::
      ((if p.2.name ≠ "" then [(lower p.2.name, p.1)] else []) ++
        p.2.aliases.map (fun a => (lower a, p.1))))

/-- `buildLookupTables`: the `this.testAliases` map (aliases only), with
`Map.set` overwrite semantics via `mapGet`. -/
def testAliasesPairs (kb : KB) : List (String × String) :=
  kb.flatMap (fun p => p.2.aliases.map (fun a => (lower a, p.1)))

/-- `buildLookupTables`: the `this.units` set — every catalog unit then the
base units, in insertion order with duplicates dropped. -/
def unitsList (kb : KB) : List String :=
  dedupFirst ((kb.filterMap (fun p => if p.2.unit ≠ "" then some p.2.unit else none))
    ++ baseUnits)

/-- `getConfidenceLevel(similarity)`. -/
def getConfidenceLevel (similarity : ℚ) : String :=
  if similarity ≥ thresholdExact then "exact"
  else if similarity ≥ (8 : ℚ)/10 then "high"
  else if similarity ≥ (6 : ℚ)/10 then "medium"
  else "low"

/-- `levenshteinSimilarity(str1, str2)`: `1 - distance / maxLength`, and 1
when both strings are empty. -/
def levenshteinSimilarity (s1 s2 : String) : ℚ :=
  let maxLength := max s1.length s2.length
  if maxLength = 0 then 1
  else 1 - (levenshteinDistance s1 s2 : ℚ) / (maxLength : ℚ)

/-- Character access with a default, for the Jaro index arithmetic. -/
def charAtD (l : List Char) (i : ℕ) : Char := l.getD i ' '

/-- The Jaro match window for position `i`: the indices `j` with
`max(0, i - w) ≤ j < min(i + w + 1, len2)` where
`w = ⌊max(len1, len2)/2⌋ - 1` (which can be -1, giving an empty window). -/
def jaroWindow (len1 len2 i : ℕ) : List ℕ :=
  let w : ℤ := (max len1 len2 : ℤ)/2 - 1
  (List.range len2).filter (fun j =>
    decide (max 0 ((i : ℤ) - w) ≤ (j : ℤ)) && decide ((j : ℤ) < (i : ℤ) + w + 1))

/-- The Jaro match-finding pass: for each `i` in order, the first unmatched
`j` in the window with equal characters; returns the per-`i` matches and the
final `matches2` flags. -/
def jaroScan (a b : List Char) :
    List ℕ → List Bool → List (Option ℕ) × List Bool
  | [], m2 => ([], m2)
  | i :: rest, m2 =>
    let oj := (jaroWindow a.length b.length i).find? (fun j =>
      !(m2.getD j true) && decide (charAtD a i = charAtD b j))
    let m2' := match oj with
      | some j => m2.set j true
      | none => m2
    let r := jaroScan a b rest m2'
    (oj :: r.1, r.2)

/-- `jaroSimilarity(str1, str2)`: matching-window matches `m`, transpositions
`t` (mismatches between the matched characters of `str1` in order and the
matched characters of `str2` in index order), then
`(m/len1 + m/len2 + (m - t/2)/m) / 3`. -/
def jaroSimilarity (s1 s2 : String) : ℚ :=
  if s1 = s2 then 1
  else
    let a := s1.data
    let b := s2.data
    let len1 := a.length
    let len2 := b.length
    if len1 = 0 ∨ len2 = 0 then 0
    else
      let scan := jaroScan a b (List.range len1) (List.replicate len2 false)
      let m := (scan.1.filterMap id).length
      if m = 0 then 0
      else
        let m1chars := (a.zip scan.1).filterMap
          (fun p => if p.2.isSome then some p.1 else none)
        let sortedJs := (List.range len2).filter (fun j => scan.2.getD j false)
        let m2chars := sortedJs.map (charAtD b)
        let t := ((m1chars.zip m2chars).filter (fun p => p.1 ≠ p.2)).length
        ((m : ℚ)/(len1 : ℚ) + (m : ℚ)/(len2 : ℚ) +
          ((m : ℚ) - (t : ℚ)/2)/(m : ℚ)) / 3

/-- The inner double loop of `substringsimilarity`: the length of the longest
contiguous substring of `sh` that occurs in `lo` (strict-greater updates over
slices `sh.slice(i, j)`, `0 ≤ i < len`, `i + 1 ≤ j ≤ len`). -/
def longestCommonLen (sh lo : List Char) : ℕ :=
  ((List.range sh.length).flatMap (fun i =>
    (List.range (sh.length + 1)).filterMap (fun j =>
      if i + 1 ≤ j then some ((sh.drop i).take (j - i)) else none))).foldl
    (fun acc sub => if substrAuxL sub lo ∧ sub.length > acc then sub.length else acc) 0

/-- `substringsimilarity(str1, str2)` (sic: the source method is lower-case):
containment score or longest-common-substring score against the longer
string. -/
def substringsimilarity (s1 s2 : String) : ℚ :=
  let longer := if s1.length > s2.length then s1 else s2
  let shorter := if s1.length > s2.length then s2 else s1
  if longer.length = 0 then 1
  else if containsSubstr longer shorter then
    (shorter.length : ℚ) / (longer.length : ℚ)
  else (longestCommonLen shorter.data longer.data : ℚ) / (longer.length : ℚ)

/-- `getNGrams(str, n)` inside `calculateNGramSimilarity`. -/
def getNGrams (s : List Char) (n : ℕ) : List (List Char) :=
  (List.range (s.length + 1 - n)).map (fun i => (s.drop i).take n)

/-- `calculateNGramSimilarity(str1, str2, n = 2)`: Jaccard overlap of the
case-folded n-gram sets; 0 when the union is empty. -/
def calculateNGramSimilarity (s1 s2 : String) (n : ℕ) : ℚ :=
  let g1 := dedupFirst (getNGrams (lower s1).data n)
  let g2 := dedupFirst (getNGrams (lower s2).data n)
  let inter := g1.filter (fun g => g2.contains g)
  let uni := dedupFirst (g1 ++ g2)
  if uni.length = 0 then 0 else (inter.length : ℚ) / (uni.length : ℚ)

/-- `calculateStringSimilarity(str1, str2)` — the fallback blend
`0.5·levenshtein + 0.3·jaro + 0.2·substring`, 0 when either string is
empty. -/
def calculateStringSimilarity (s1 s2 : String) : ℚ :=
  if s1 = "" ∨ s2 = "" then 0
  else levenshteinSimilarity s1 s2 * (1/2) + jaroSimilarity s1 s2 * (3/10) +
    substringsimilarity s1 s2 * (1/5)

/-- `calculateAdvancedStringSimilarity(str1, str2)`: with `natural` present,
the blend `0.3·levenshtein + 0.3·jaro + 0.2·substring + 0.2·ngram` using
`natural`'s Levenshtein distance; otherwise the fallback blend. -/
def calculateAdvancedStringSimilarity (nlp : NlpLibs) (s1 s2 : String) : ℚ :=
  if s1 = "" ∨ s2 = "" then 0
  else if nlp.naturalAvailable then
    let distance := nlp.natLevenshtein s1 s2
    let maxLength := max s1.length s2.length
    let levenshteinSim := 1 - (distance : ℚ) / (maxLength : ℚ)
    levenshteinSim * (3/10) + jaroSimilarity s1 s2 * (3/10) +
      substringsimilarity s1 s2 * (1/5) + calculateNGramSimilarity s1 s2 2 * (1/5)
  else calculateStringSimilarity s1 s2

/-- `findAdvancedStringMatch(input, candidates)`: best candidate under the
advanced blend, strict-greater updates, `none` when no candidate scores
above 0. -/
def findAdvancedStringMatch (nlp : NlpLibs) (input : String)
    (candidates : List (String × String)) : Option (String × ℚ) :=
  let best := candidates.foldl (fun acc c =>
    let s := calculateAdvancedStringSimilarity nlp input c.1
    if s > acc.2 then (some c, s) else acc)
    ((none : Option (String × String)), (0 : ℚ))
  match best.1 with
  | some c => some (c.2, best.2)
  | none => none

/-- `findSemanticMatch` — the source always returns `null`. -/
def findSemanticMatch (_input _ty : String) : Option (String × ℚ) := none

/-- `findPhoneticMatch(input, type)`: none without `natural`; otherwise the
best candidate under `0.7·(0.6·metaphone hit + 0.4·soundex hit) +
0.3·advanced string blend`. -/
def findPhoneticMatch (nlp : NlpLibs) (kb : KB) (input ty : String) :
    Option (String × ℚ) :=
  if !nlp.naturalAvailable then none
  else
    let candidates :=
      if ty = "testName" then testNamesArray kb
      else if ty = "status" then baseStatuses.map (fun s => (s, s))
      else []
    let inputMeta := nlp.metaphone input
    let inputSdx := nlp.soundex input
    let best := candidates.foldl (fun acc c =>
      let phoneticSim :=
        (if nlp.metaphone c.1 = inputMeta then (6 : ℚ)/10 else 0) +
        (if nlp.soundex c.1 = inputSdx then (4 : ℚ)/10 else 0)
      let combined := phoneticSim * (7/10) +
        calculateAdvancedStringSimilarity nlp input c.1 * (3/10)
      if combined > acc.2 then (some c, combined) else acc)
      ((none : Option (String × String)), (0 : ℚ))
    match best.1 with
    | some c => some (c.2, best.2)
    | none => none

/-- A `MatchResult` as returned by the three `findBest*Match` methods. The
constructed unit fallbacks of `findBestTestMatch` carry no `method`. -/
structure MatchResult where
  matched : String
  similarity : ℚ
  confidence : String
  method : Option String
deriving DecidableEq, Repr

/-- Step 2 of the name cascade: the Fuse.js search, accepted at or above the
test-name threshold (`similarity = 1 - score`). -/
def fuseNameStep (nlp : NlpLibs) (clean : String) : Option MatchResult :=
  if nlp.fuseAvailable then
    match nlp.fuseNames clean with
    | [] => none
    | (k, score) :: _ =>
      let similarity := 1 - score
      if similarity ≥ thresholdTestName then
        some ⟨k, similarity, getConfidenceLevel similarity, some "fuse_fuzzy"⟩
      else none
  else none

/-- Step 3 of the name cascade: phonetic match at or above the phonetic
threshold. -/
def phoneticNameStep (nlp : NlpLibs) (kb : KB) (clean : String) :
    Option MatchResult :=
  match findPhoneticMatch nlp kb clean "testName" with
  | some (k, sim) =>
    if sim ≥ thresholdPhonetic then
      some ⟨k, sim, getConfidenceLevel sim, some "phonetic"⟩
    else none
  | none => none

/-- Step 4 of the name cascade: advanced string blend at or above the
test-name threshold. -/
def advancedNameStep (nlp : NlpLibs) (kb : KB) (clean : String) :
    Option MatchResult :=
  match findAdvancedStringMatch nlp clean (testNamesArray kb) with
  | some (k, sim) =>
    if sim ≥ thresholdTestName then
      some ⟨k, sim, getConfidenceLevel sim, some "advanced_string"⟩
    else none
  | none => none

/-- Step 5 of the name cascade: the (always empty) semantic match. -/
def semanticNameStep (clean : String) : Option MatchResult :=
  match findSemanticMatch clean "testName" with
  | some (k, sim) =>
    if sim ≥ (7 : ℚ)/10 then some ⟨k, sim, getConfidenceLevel sim, some "semantic"⟩
    else none
  | none => none

/-- `findBestTestNameMatch(inputName)`: exact alias hit, direct catalog key
hit, then the Fuse / phonetic / advanced / semantic cascade. -/
def findBestTestNameMatch (nlp : NlpLibs) (kb : KB) (inputName : String) :
    Option MatchResult :=
  if inputName = "" then none
  else
    let cleanInput := lower inputName.trim
    match mapGet (testAliasesPairs kb) cleanInput with
    | some k => some ⟨k, 1, "exact", some "exact_match"⟩
    | none =>
      if (List.lookup cleanInput kb).isSome then
        some ⟨cleanInput, 1, "exact", some "direct_lookup"⟩
      else
        jsOr (fuseNameStep nlp cleanInput)
          (jsOr (phoneticNameStep nlp kb cleanInput)
            (jsOr (advancedNameStep nlp kb cleanInput)
              (semanticNameStep cleanInput)))

/-- The Fuse step of `findBestUnitMatch`. -/
def fuseUnitStep (nlp : NlpLibs) (clean : String) : Option MatchResult :=
  if nlp.fuseAvailable then
    match nlp.fuseUnits clean with
    | [] => none
    | (item, score) :: _ =>
      let similarity := 1 - score
      if similarity ≥ thresholdUnit then
        some ⟨item, similarity, getConfidenceLevel similarity, some "fuse_fuzzy"⟩
      else none
  else none

/-- `findBestUnitMatch(inputUnit)`: exact set hit on the trimmed unit, then
Fuse, then the advanced blend over all units (input lower-cased, candidates
as stored). -/
def findBestUnitMatch (nlp : NlpLibs) (kb : KB) (inputUnit : String) :
    Option MatchResult :=
  if inputUnit = "" then none
  else
    let cleanInput := inputUnit.trim
    if (unitsList kb).contains cleanInput then
      some ⟨cleanInput, 1, "exact", some "exact_match"⟩
    else
      jsOr (fuseUnitStep nlp cleanInput)
        (match findAdvancedStringMatch nlp (lower cleanInput)
            ((unitsList kb).map (fun u => (u, u))) with
         | some (k, sim) =>
           if sim ≥ thresholdUnit then
             some ⟨k, sim, getConfidenceLevel sim, some "advanced_string"⟩
           else none
         | none => none)

/-- The Fuse step of `findBestStatusMatch`. -/
def fuseStatusStep (nlp : NlpLibs) (clean : String) : Option MatchResult :=
  if nlp.fuseAvailable then
    match nlp.fuseStatus clean with
    | [] => none
    | (item, score) :: _ =>
      let similarity := 1 - score
      if similarity ≥ thresholdStatus then
        some ⟨item, similarity, getConfidenceLevel similarity, some "fuse_fuzzy"⟩
      else none
  else none

/-- `findBestStatusMatch(inputStatus)`: exact base-status hit, then Fuse,
phonetic, and the advanced blend over the base statuses. -/
def findBestStatusMatch (nlp : NlpLibs) (kb : KB) (inputStatus : String) :
    Option MatchResult :=
  if inputStatus = "" then none
  else
    let cleanInput := lower inputStatus.trim
    if baseStatuses.contains cleanInput then
      some ⟨cleanInput, 1, "exact", some "exact_match"⟩
    else
      jsOr (fuseStatusStep nlp cleanInput)
        (jsOr
          (match findPhoneticMatch nlp kb cleanInput "status" with
           | some (k, sim) =>
             if sim ≥ thresholdPhonetic then
               some ⟨k, sim, getConfidenceLevel sim, some "phonetic"⟩
             else none
           | none => none)
          (match findAdvancedStringMatch nlp cleanInput
              (baseStatuses.map (fun s => (s, s))) with
           | some (k, sim) =>
             if sim ≥ thresholdStatus then
               some ⟨k, sim, getConfidenceLevel sim, some "advanced_string"⟩
             else none
           | none => none))

/-- `calculateOverallConfidence(nameMatch, unitMatch, statusMatch)`: weighted
average over the present fields with weights 0.6 / 0.25 / 0.15. -/
def calculateOverallConfidence
    (nameMatch unitMatch statusMatch : Option MatchResult) : ℚ :=
  let acc1 : ℚ × ℚ := match nameMatch with
    | some m => (m.similarity * (3/5), 3/5)
    | none => (0, 0)
  let acc2 := match unitMatch with
    | some m => (acc1.1 + m.similarity * (1/4), acc1.2 + 1/4)
    | none => acc1
  let acc3 := match statusMatch with
    | some m => (acc2.1 + m.similarity * (3/20), acc2.2 + 3/20)
    | none => acc2
  if acc3.2 > 0 then acc3.1 / acc3.2 else 0

/-- The composed result of `findBestTestMatch`. -/
structure TestMatch where
  testKey : String
  testData : KBEntry
  nameMatch : MatchResult
  unitMatch : MatchResult
  statusMatch : Option MatchResult
  confidence : ℚ
deriving DecidableEq, Repr

/-- JS truthiness for an optional string argument (absent and `''` are
falsy). -/
def isTruthy (o : Option String) : Bool :=
  match o with
  | none => false
  | some s => s ≠ ""

/-- `findBestTestMatch(testName, value, unit, status)` (the `value` argument
is unused by the source function). A supplied unit that finds no match or a
`low`-confidence one is replaced by the catalog unit at similarity 0.8, tier
`assumed`; a missing unit yields the catalog unit at similarity 1.0, tier
`default`. -/
def findBestTestMatch (nlp : NlpLibs) (kb : KB) (testName : String)
    (_value : JSVal) (unit status : Option String) : Option TestMatch :=
  match findBestTestNameMatch nlp kb testName with
  | none => none
  | some nameMatch =>
    match List.lookup nameMatch.matched kb with
    | none => none
    | some testData =>
      let unitMatch : MatchResult :=
        if isTruthy unit then
          match findBestUnitMatch nlp kb (unit.getD "") with
          | none => ⟨testData.unit, (4 : ℚ)/5, "assumed", none⟩
          | some um =>
            if um.confidence = "low" then ⟨testData.unit, (4 : ℚ)/5, "assumed", none⟩
            else um
        else ⟨testData.unit, 1, "default", none⟩
      let statusMatch :=
        if isTruthy status then findBestStatusMatch nlp kb (status.getD "")
        else none
      some ⟨nameMatch.matched, testData, nameMatch, unitMatch, statusMatch,
        calculateOverallConfidence (some nameMatch) (some unitMatch) statusMatch⟩

/-- A concrete instance of the external-library interface for concrete
evaluations: neither `natural` nor `fuse.js` is available (the `try`/`catch`
fallback path of the source); the exact-match steps never consult it. -/
def nlpAbsent : NlpLibs :=
  ⟨false, false, fun _ => "", fun _ => "", fun _ _ => 0,
   fun _ => [], fun _ => [], fun _ => []⟩

/-- Every catalog key, display name and alias, case-folded — the names the
exact-match claim ranges over. -/
def foldedCatalogNames (kb : KB) : List String :=
  kb.flatMap (fun p => lower p.1 :: lower p.2.name :: p.2.aliases.map lower)

/-- The `hemoglobin` catalog entry, for concrete instantiations. -/
def hemoglobinEntry : KBEntry :=
  { ref_range := some ⟨12, 15⟩, normalRange := some ⟨12, 15⟩,
    physicalLimits := some (0, 30), name := "Hemoglobin", unit := "g/dL",
    aliases := ["hgb", "hb", "hemglobin", "heoglobin", "hemglobin"] }

end SimilarityMatcher

/-! ## Helper lemmas -/

theorem startsWithL_append_self (p t : List Char) :
    startsWithL p (p ++ t) = true := by
  induction p with
  | nil => rfl
  | cons c cs ih => simp [startsWithL, ih]

theorem substrAuxL_append_left {p b : List Char} (a : List Char)
    (h : substrAuxL p b = true) : substrAuxL p (a ++ b) = true := by
  induction a with
  | nil => simpa using h
  | cons c cs ih =>
    simp only [List.cons_append, substrAuxL, Bool.or_eq_true]
    exact Or.inr ih

theorem substrAuxL_of_starts {p l : List Char} (h : startsWithL p l = true) :
    substrAuxL p l = true := by
  cases l with
  | nil => simpa [substrAuxL] using h
  | cons c cs => simp [substrAuxL, h]

/-- Every hallucination rejection message contains the marker substring the
loop scans for. -/
theorem hallucinationReason_contains_marker (name : String) :
    containsSubstr (GuardrailService.hallucinationReason name)
      GuardrailService.hallucMarker = true := by
  show substrAuxL GuardrailService.hallucMarker.data
    (("Test '" ++ name) ++ "' not found in original text - potential hallucination").data
    = true
  rw [String.data_append]
  exact substrAuxL_append_left _ (by decide)

/-- The Levenshtein distance is at most the length of the longer string. -/
theorem levDistL_le_max (xs ys : List Char) :
    levDistL xs ys ≤ max xs.length ys.length := by
  induction xs, ys using levDistL.induct with
  | case1 ys => simp [levDistL]
  | case2 x xs => simp [levDistL]
  | case3 xs y ys ih =>
    simp only [levDistL, if_true, eq_self_iff_true, List.length_cons]
    omega
  | case4 x xs y ys hne ih1 ih2 ih3 =>
    simp only [levDistL, if_neg hne, List.length_cons]
    omega

namespace GuardrailService

theorem validateSingleTest_structFail {kb : KB} {t : TestRec}
    {text : Option String} (h : isValidTestStructure t = false) :
    validateSingleTest kb t text = ⟨false, [], 1, some (structureReason t.name)⟩ := by
  simp [validateSingleTest, h]

theorem validateSingleTest_halluc {kb : KB} {t : TestRec} {text : Option String}
    (h1 : isValidTestStructure t = true)
    (h2 : isTestMentionedInOriginal kb t.name text = false) :
    (validateSingleTest kb t text).isValid = false ∧
      (validateSingleTest kb t text).rejectionReason =
        some (hallucinationReason t.name) := by
  simp [validateSingleTest, h1, h2]

theorem validateSingleTest_ok {kb : KB} {t : TestRec} {text : Option String}
    (h1 : isValidTestStructure t = true)
    (h2 : isTestMentionedInOriginal kb t.name text = true) :
    (validateSingleTest kb t text).isValid = true ∧
      (validateSingleTest kb t text).rejectionReason = none := by
  simp [validateSingleTest, h1, h2]

/-- A rejected test was rejected either for structure or for traceability. -/
theorem validateSingleTest_reject_cases {kb : KB} {t : TestRec}
    {text : Option String}
    (h : (validateSingleTest kb t text).isValid = false) :
    (isValidTestStructure t = false ∧
      (validateSingleTest kb t text).rejectionReason =
        some (structureReason t.name)) ∨
    (isValidTestStructure t = true ∧
      isTestMentionedInOriginal kb t.name text = false ∧
      (validateSingleTest kb t text).rejectionReason =
        some (hallucinationReason t.name)) := by
  by_cases hs : isValidTestStructure t = false
  · exact Or.inl ⟨hs, by simp [validateSingleTest, hs]⟩
  · rw [Bool.not_eq_false] at hs
    by_cases hm : isTestMentionedInOriginal kb t.name text = false
    · exact Or.inr ⟨hs, hm, by simp [validateSingleTest, hs, hm]⟩
    · rw [Bool.not_eq_false] at hm
      exact absurd ((validateSingleTest_ok hs hm).1) (by simp [h])

/-- If some structurally valid record of the list fails the traceability
check, the loop aborts at a record that was rejected for structure or
traceability. -/
theorem runLoop_aborts (kb : KB) (text : Option String) :
    ∀ (tests : List TestRec) (st : LoopState),
      (∃ t ∈ tests, isValidTestStructure t = true ∧
        isTestMentionedInOriginal kb t.name text = false) →
      ∃ t' st', runLoop kb text tests st = .error (t', st') ∧ t' ∈ tests ∧
        (isValidTestStructure t' = false ∨
          isTestMentionedInOriginal kb t'.name text = false) := by
  intro tests
  induction tests with
  | nil => rintro st ⟨t, ht, _⟩; exact absurd ht (List.not_mem_nil t)
  | cons t rest ih =>
    rintro st ⟨w, hw, hws, hwm⟩
    by_cases hv : (validateSingleTest kb t text).isValid = true
    · have hwrest : w ∈ rest := by
        rcases List.mem_cons.mp hw with h | h
        · subst h
          have hfalse := (validateSingleTest_halluc hws hwm).1
          rw [hfalse] at hv
          exact absurd hv (by simp)
        · exact h
      have step : runLoop kb text (t :: rest) st =
          runLoop kb text rest (acceptState st t (validateSingleTest kb t text)) := by
        simp [runLoop, hv]
      rcases ih (acceptState st t (validateSingleTest kb t text))
        ⟨w, hwrest, hws, hwm⟩ with ⟨t', st', heq, hmem, hcase⟩
      exact ⟨t', st', step.trans heq, List.mem_cons_of_mem t hmem, hcase⟩
    · rw [Bool.not_eq_true] at hv
      rcases @validateSingleTest_reject_cases kb t text hv
        with ⟨h1, h2⟩ | ⟨h1, h2, h3⟩
      · by_cases hmk : containsSubstr
            ((validateSingleTest kb t text).rejectionReason.getD "")
            hallucMarker = true
        · refine ⟨t, rejectState st t (validateSingleTest kb t text), ?_,
            List.mem_cons_self t rest, Or.inl h1⟩
          simp [runLoop, hv, hmk]
        · have hwrest : w ∈ rest := by
            rcases List.mem_cons.mp hw with h | h
            · subst h
              rw [hws] at h1
              exact absurd h1 (by simp)
            · exact h
          have step : runLoop kb text (t :: rest) st =
              runLoop kb text rest (rejectState st t (validateSingleTest kb t text)) := by
            simp only [runLoop, hv]
            rw [Bool.not_eq_true] at hmk
            simp [hmk]
          rcases ih (rejectState st t (validateSingleTest kb t text))
            ⟨w, hwrest, hws, hwm⟩ with ⟨t', st', heq, hmem, hcase⟩
          exact ⟨t', st', step.trans heq, List.mem_cons_of_mem t hmem, hcase⟩
      · have hmk : containsSubstr
            ((validateSingleTest kb t text).rejectionReason.getD "")
            hallucMarker = true := by
          rw [h3]
          exact hallucinationReason_contains_marker t.name
        refine ⟨t, rejectState st t (validateSingleTest kb t text), ?_,
          List.mem_cons_self t rest, Or.inr h2⟩
        simp [runLoop, hv, hmk]

/-- The abort record's rejection reason contains the marker. -/
theorem runLoop_error_marker (kb : KB) (text : Option String) :
    ∀ (tests : List TestRec) (st : LoopState) (t' : TestRec) (st' : LoopState),
      runLoop kb text tests st = .error (t', st') →
      t' ∈ tests ∧ (validateSingleTest kb t' text).isValid = false ∧
        containsSubstr ((validateSingleTest kb t' text).rejectionReason.getD "")
          hallucMarker = true := by
  intro tests
  induction tests with
  | nil => intro st t' st' h; exact absurd h (by simp [runLoop])
  | cons t rest ih =>
    intro st t' st' h
    by_cases hv : (validateSingleTest kb t text).isValid = true
    · rw [show runLoop kb text (t :: rest) st =
        runLoop kb text rest (acceptState st t (validateSingleTest kb t text)) by
          simp [runLoop, hv]] at h
      rcases ih _ _ _ h with ⟨hmem, h2, h3⟩
      exact ⟨List.mem_cons_of_mem t hmem, h2, h3⟩
    · rw [Bool.not_eq_true] at hv
      by_cases hmk : containsSubstr
          ((validateSingleTest kb t text).rejectionReason.getD "")
          hallucMarker = true
      · have : runLoop kb text (t :: rest) st =
            .error (t, rejectState st t (validateSingleTest kb t text)) := by
          simp [runLoop, hv, hmk]
        rw [this] at h
        injection h with hpair
        injection hpair with h1 h2
        subst h1
        exact ⟨List.mem_cons_self t rest, hv, hmk⟩
      · rw [show runLoop kb text (t :: rest) st =
          runLoop kb text rest (rejectState st t (validateSingleTest kb t text)) by
            rw [Bool.not_eq_true] at hmk
            simp [runLoop, hv, hmk]] at h
        rcases ih _ _ _ h with ⟨hmem, h2, h3⟩
        exact ⟨List.mem_cons_of_mem t hmem, h2, h3⟩

theorem acceptState_validated (st : LoopState) (t : TestRec) (r : SingleResult) :
    (acceptState st t r).validated = st.validated ++ [t] := by
  unfold acceptState
  split <;> rfl

/-- When the loop finishes without aborting, the records it validated extend
the accumulator by a subsequence of its input, in input order. -/
theorem runLoop_ok_validated (kb : KB) (text : Option String) :
    ∀ (tests : List TestRec) (st st' : LoopState),
      runLoop kb text tests st = .ok st' →
      ∃ s, List.Sublist s tests ∧ st'.validated = st.validated ++ s := by
  intro tests
  induction tests with
  | nil =>
    intro st st' h
    injection h with h1
    exact ⟨[], List.nil_sublist _, by simp [← h1]⟩
  | cons t rest ih =>
    intro st st' h
    by_cases hv : (validateSingleTest kb t text).isValid = true
    · rw [show runLoop kb text (t :: rest) st =
        runLoop kb text rest (acceptState st t (validateSingleTest kb t text)) by
          simp [runLoop, hv]] at h
      rcases ih _ _ h with ⟨s, hsub, hval⟩
      refine ⟨t :: s, List.Sublist.cons₂ t hsub, ?_⟩
      rw [hval, acceptState_validated]
      simp
    · rw [Bool.not_eq_true] at hv
      by_cases hmk : containsSubstr
          ((validateSingleTest kb t text).rejectionReason.getD "")
          hallucMarker = true
      · rw [show runLoop kb text (t :: rest) st =
          .error (t, rejectState st t (validateSingleTest kb t text)) by
            simp [runLoop, hv, hmk]] at h
        exact absurd h (by simp)
      · rw [show runLoop kb text (t :: rest) st =
          runLoop kb text rest (rejectState st t (validateSingleTest kb t text)) by
            rw [Bool.not_eq_true] at hmk
            simp [runLoop, hv, hmk]] at h
        rcases ih _ _ h with ⟨s, hsub, hval⟩
        exact ⟨s, List.Sublist.cons t hsub, hval⟩

/-- The loop multiplies the confidence only alongside warnings: a final state
without warnings still has the initial confidence. -/
theorem runLoop_warnings_inv (kb : KB) (text : Option String) :
    ∀ (tests : List TestRec) (st st' : LoopState),
      runLoop kb text tests st = .ok st' →
      (st.warnings = [] → st.confidence = 1) →
      (st'.warnings = [] → st'.confidence = 1) := by
  intro tests
  induction tests with
  | nil =>
    intro st st' h hp
    injection h with h1
    exact h1 ▸ hp
  | cons t rest ih =>
    intro st st' h hp
    by_cases hv : (validateSingleTest kb t text).isValid = true
    · rw [show runLoop kb text (t :: rest) st =
        runLoop kb text rest (acceptState st t (validateSingleTest kb t text)) by
          simp [runLoop, hv]] at h
      refine ih _ _ h ?_
      unfold acceptState
      split_ifs with hw
      · intro hcontra
        exfalso
        exact hw (List.append_eq_nil.mp
          (show st.warnings ++ (validateSingleTest kb t text).warnings = []
            from hcontra)).2
      · intro hcontra
        show st.confidence = 1
        exact hp (show st.warnings = [] from hcontra)
    · rw [Bool.not_eq_true] at hv
      by_cases hmk : containsSubstr
          ((validateSingleTest kb t text).rejectionReason.getD "")
          hallucMarker = true
      · rw [show runLoop kb text (t :: rest) st =
          .error (t, rejectState st t (validateSingleTest kb t text)) by
            simp [runLoop, hv, hmk]] at h
        exact absurd h (by simp)
      · rw [show runLoop kb text (t :: rest) st =
          runLoop kb text rest (rejectState st t (validateSingleTest kb t text)) by
            rw [Bool.not_eq_true] at hmk
            simp [runLoop, hv, hmk]] at h
        exact ih _ _ h (by simpa [rejectState] using hp)

/-- With no original text, every mention check passes. -/
theorem isTestMentionedInOriginal_none (kb : KB) (name : String) :
    isTestMentionedInOriginal kb name none = true := rfl

/-- With an empty original text (falsy in JS), every mention check passes. -/
theorem isTestMentionedInOriginal_empty (kb : KB) (name : String) :
    isTestMentionedInOriginal kb name (some "") = true := by
  simp [isTestMentionedInOriginal]

/-- Without original text the loop can only abort through a structural
rejection message that itself contains the marker text. -/
theorem runLoop_none_ok (kb : KB) :
    ∀ (tests : List TestRec) (st : LoopState),
      (∀ t ∈ tests, containsSubstr (structureReason t.name) hallucMarker = false) →
      ∃ st', runLoop kb none tests st = .ok st' := by
  intro tests
  induction tests with
  | nil => exact fun st _ => ⟨st, rfl⟩
  | cons t rest ih =>
    intro st hall
    by_cases hs : isValidTestStructure t = true
    · have hv : (validateSingleTest kb t none).isValid = true :=
        (validateSingleTest_ok hs (isTestMentionedInOriginal_none kb t.name)).1
      rcases ih (acceptState st t (validateSingleTest kb t none))
        (fun u hu => hall u (List.mem_cons_of_mem t hu)) with ⟨st', hst'⟩
      exact ⟨st', by rw [show runLoop kb none (t :: rest) st =
        runLoop kb none rest (acceptState st t (validateSingleTest kb t none)) by
          simp [runLoop, hv]]; exact hst'⟩
    · rw [Bool.not_eq_true] at hs
      have hr := @validateSingleTest_structFail kb t none hs
      have hv : (validateSingleTest kb t none).isValid = false := by rw [hr]
      have hmk : containsSubstr
          ((validateSingleTest kb t none).rejectionReason.getD "")
          hallucMarker = false := by
        rw [hr]
        exact hall t (List.mem_cons_self t rest)
      rcases ih (rejectState st t (validateSingleTest kb t none))
        (fun u hu => hall u (List.mem_cons_of_mem t hu)) with ⟨st', hst'⟩
      exact ⟨st', by rw [show runLoop kb none (t :: rest) st =
        runLoop kb none rest (rejectState st t (validateSingleTest kb t none)) by
          simp [runLoop, hv, hmk]]; exact hst'⟩

/-! ## Claim theorems: guardrail batch behavior -/

/-- C1 (amended): whenever some structurally valid record fails the
traceability check, `validateTests` returns status `unprocessed` with an
empty `validated_tests` — never a partial list — and a reason of the form
`hallucinated tests not present in input: <name>` naming a record of the
input that was rejected for structure or for traceability (normally the
untraceable record itself; see the counterexample for the exception). -/
theorem whole_batch_rejection (kb : KB) (tests : List TestRec)
    (text : Option String)
    (h : ∃ t ∈ tests, isValidTestStructure t = true ∧
      isTestMentionedInOriginal kb t.name text = false) :
    (validateTests kb tests text).status = "unprocessed" ∧
    (validateTests kb tests text).validated_tests = [] ∧
    ∃ t' ∈ tests,
      (validateTests kb tests text).reason =
        some ("hallucinated tests not present in input: " ++ t'.name) ∧
      (isValidTestStructure t' = false ∨
        isTestMentionedInOriginal kb t'.name text = false) := by
  obtain ⟨t', st', heq, hmem, hcase⟩ := runLoop_aborts kb text tests initValidation h
  unfold validateTests
  rw [heq]
  exact ⟨rfl, rfl, t', hmem, rfl, hcase⟩

theorem whole_batch_rejection_witness :
    (validateTests MEDICAL_DATA [⟨"glucose", .vnum 100, "mg/dL", "normal"⟩]
      (some "hemoglobin 10.2")).status = "unprocessed" ∧
    (validateTests MEDICAL_DATA [⟨"glucose", .vnum 100, "mg/dL", "normal"⟩]
      (some "hemoglobin 10.2")).validated_tests = [] := by
  have h := whole_batch_rejection MEDICAL_DATA
    [⟨"glucose", .vnum 100, "mg/dL", "normal"⟩] (some "hemoglobin 10.2")
    ⟨⟨"glucose", .vnum 100, "mg/dL", "normal"⟩, List.mem_cons_self _ _,
      by with_unfolding_all decide, by with_unfolding_all decide⟩
  exact ⟨h.1, h.2.1⟩

/-- C1, counterexample to "a reason naming the untraceable test": in this
batch the only record failing the traceability check is `glucose`, but the
reason names the first record instead — a structurally invalid one whose
name happens to contain the scanned-for marker text, and which is itself
perfectly traceable to the source text. -/
theorem whole_batch_rejection_counterexample :
    (validateTests MEDICAL_DATA
      [⟨"x not found in original", .vnull, "g/dL", "low"⟩,
       ⟨"glucose", .vnum 100, "mg/dL", "normal"⟩]
      (some "x not found in original 10")).status = "unprocessed" ∧
    (validateTests MEDICAL_DATA
      [⟨"x not found in original", .vnull, "g/dL", "low"⟩,
       ⟨"glucose", .vnum 100, "mg/dL", "normal"⟩]
      (some "x not found in original 10")).reason =
      some "hallucinated tests not present in input: x not found in original" ∧
    isValidTestStructure ⟨"x not found in original", .vnull, "g/dL", "low"⟩ = false ∧
    isTestMentionedInOriginal MEDICAL_DATA "x not found in original"
      (some "x not found in original 10") = true ∧
    isValidTestStructure ⟨"glucose", .vnum 100, "mg/dL", "normal"⟩ = true ∧
    isTestMentionedInOriginal MEDICAL_DATA "glucose"
      (some "x not found in original 10") = false := by
  with_unfolding_all decide

/-- C7: when the loop finishes without a hallucination abort, the verdict
status is a function of the aggregate confidence and the warnings alone:
below 0.3 `unprocessed`, in [0.3, 0.6) `low_confidence`, at or above 0.6
with warnings `ok_with_warnings`, and with no warnings `ok` (no warnings
forces confidence 1). -/
theorem validateTests_status_policy (kb : KB) (tests : List TestRec)
    (text : Option String) (st : LoopState)
    (h : runLoop kb text tests initValidation = .ok st) :
    (validateTests kb tests text).confidence = st.confidence ∧
    (validateTests kb tests text).warnings = st.warnings ∧
    (st.confidence < (3 : ℚ)/10 →
      (validateTests kb tests text).status = "unprocessed") ∧
    ((3 : ℚ)/10 ≤ st.confidence → st.confidence < (6 : ℚ)/10 →
      (validateTests kb tests text).status = "low_confidence") ∧
    ((6 : ℚ)/10 ≤ st.confidence → st.warnings ≠ [] →
      (validateTests kb tests text).status = "ok_with_warnings") ∧
    (st.warnings = [] → (validateTests kb tests text).status = "ok") := by
  have hinv : st.warnings = [] → st.confidence = 1 :=
    runLoop_warnings_inv kb text tests initValidation st h (fun _ => rfl)
  unfold validateTests
  rw [h]
  dsimp only
  split_ifs with h1 h2 h3
  · refine ⟨rfl, rfl, fun _ => rfl, ?_, ?_, ?_⟩
    · intro ha _; exfalso; linarith
    · intro ha _; exfalso; linarith
    · intro hw; exfalso; have := hinv hw; rw [this] at h1; linarith
  · refine ⟨rfl, rfl, ?_, fun _ _ => rfl, ?_, ?_⟩
    · intro ha; exact absurd ha h1
    · intro ha _; exfalso; linarith
    · intro hw; exfalso; have := hinv hw; rw [this] at h2; linarith
  · refine ⟨rfl, rfl, ?_, ?_, fun _ _ => rfl, ?_⟩
    · intro ha; exact absurd ha h1
    · intro _ hb; exact absurd hb h2
    · intro hw; exact absurd hw (by simpa using h3)
  · refine ⟨rfl, rfl, ?_, ?_, ?_, fun _ => rfl⟩
    · intro ha; exact absurd ha h1
    · intro _ hb; exact absurd hb h2
    · intro _ hw; exact absurd hw (by simpa using h3)

theorem validateTests_status_policy_witness :
    (validateTests MEDICAL_DATA [] none).status = "ok" ∧
    (validateTests MEDICAL_DATA [] none).confidence = 1 := by
  have h := validateTests_status_policy MEDICAL_DATA [] none initValidation rfl
  exact ⟨h.2.2.2.2.2 rfl, h.1⟩

/-- C9 (amended): with no source text, or an empty one, the mention check
returns `true` for every record, and a batch validated without source text
never aborts through the traceability path — unless a structurally invalid
record's rejection message itself contains the marker text `not found in
original` (see the counterexample). -/
theorem no_text_traceability_disabled (kb : KB) (name : String)
    (tests : List TestRec) :
    isTestMentionedInOriginal kb name none = true ∧
    isTestMentionedInOriginal kb name (some "") = true ∧
    ((∀ t ∈ tests, containsSubstr (structureReason t.name) hallucMarker = false) →
      ∃ st, runLoop kb none tests initValidation = .ok st) :=
  ⟨isTestMentionedInOriginal_none kb name,
   isTestMentionedInOriginal_empty kb name,
   fun h => runLoop_none_ok kb tests initValidation h⟩

theorem no_text_traceability_disabled_witness :
    isTestMentionedInOriginal MEDICAL_DATA "cholesterol" none = true ∧
    isTestMentionedInOriginal MEDICAL_DATA "cholesterol" (some "") = true ∧
    (∀ t ∈ ([⟨"glucose", .vnum 100, "mg/dL", "normal"⟩] : List TestRec),
      containsSubstr (structureReason t.name) hallucMarker = false) ∧
    ∃ st, runLoop MEDICAL_DATA none [⟨"glucose", .vnum 100, "mg/dL", "normal"⟩]
      initValidation = .ok st := by
  have h := no_text_traceability_disabled MEDICAL_DATA "cholesterol"
    [⟨"glucose", .vnum 100, "mg/dL", "normal"⟩]
  exact ⟨h.1, h.2.1, by decide, h.2.2 (by decide)⟩

/-- C9, counterexample to "a batch validated without source text can never
be rejected as hallucinated": a structurally invalid record whose name
contains the marker text triggers the hallucination abort even with no
original text at all. -/
theorem no_text_hallucination_counterexample :
    (validateTests MEDICAL_DATA
      [⟨"not found in original", .vnull, "g/dL", "low"⟩] none).status =
        "unprocessed" ∧
    (validateTests MEDICAL_DATA
      [⟨"not found in original", .vnull, "g/dL", "low"⟩] none).reason =
        some "hallucinated tests not present in input: not found in original" := by
  with_unfolding_all decide

/-- C3 (amended): for a non-empty original text, the mention check succeeds
exactly when the lower-cased name appears in the normalized text, or a
catalog alias of the looked-up entry appears, or an entry of the hard-coded
common-variation table for the name appears, or some whitespace token of the
normalized text of length at least 3 has similarity strictly above 0.7 to
the name. -/
theorem mention_check_characterization (kb : KB) (name text : String)
    (h : text ≠ "") :
    isTestMentionedInOriginal kb name (some text) = true ↔
      (containsSubstr (normalizeText text) (lower name) = true ∨
       (∃ d, mentionLookup kb name = some d ∧ ∃ a ∈ d.aliases,
          containsSubstr (normalizeText text) (lower a) = true) ∨
       (∃ v ∈ getCommonVariations (lower name),
          containsSubstr (normalizeText text) v = true) ∨
       (∃ w ∈ splitWs (normalizeText text), 3 ≤ w.length ∧
          (7 : ℚ)/10 < calculateSimilarity (lower name) w)) := by
  unfold isTestMentionedInOriginal
  dsimp only
  rw [if_neg h]
  by_cases h1 : containsSubstr (normalizeText text) (lower name) = true
  · simp [h1]
  · rw [if_neg h1]
    rcases hml : mentionLookup kb name with _ | d
    · simp only [hml]
      rw [if_neg (by simp)]
      by_cases h3 : (getCommonVariations (lower name)).any
          (fun v => containsSubstr (normalizeText text) v) = true
      · simp only [if_pos h3, true_iff]
        rcases List.any_eq_true.mp h3 with ⟨v, hv, hvc⟩
        exact Or.inr (Or.inr (Or.inl ⟨v, hv, hvc⟩))
      · rw [if_neg h3]
        simp only [fuzzyMatchInText, List.any_eq_true, Bool.and_eq_true,
          decide_eq_true_eq]
        constructor
        · rintro ⟨w, hw, hl, hs⟩
          exact Or.inr (Or.inr (Or.inr ⟨w, hw, hl, hs⟩))
        · rintro (hc | ⟨d, hd, _⟩ | hv | ⟨w, hw, hl, hs⟩)
          · exact absurd hc h1
          · exact absurd hd (by simp)
          · exact absurd (List.any_eq_true.mpr hv) h3
          · exact ⟨w, hw, hl, hs⟩
    · simp only [hml]
      by_cases h2 : d.aliases.any
          (fun a => containsSubstr (normalizeText text) (lower a)) = true
      · simp only [if_pos h2, true_iff]
        rcases List.any_eq_true.mp h2 with ⟨a, ha, hac⟩
        exact Or.inr (Or.inl ⟨d, rfl, a, ha, hac⟩)
      · rw [if_neg h2]
        by_cases h3 : (getCommonVariations (lower name)).any
            (fun v => containsSubstr (normalizeText text) v) = true
        · simp only [if_pos h3, true_iff]
          rcases List.any_eq_true.mp h3 with ⟨v, hv, hvc⟩
          exact Or.inr (Or.inr (Or.inl ⟨v, hv, hvc⟩))
        · rw [if_neg h3]
          simp only [fuzzyMatchInText, List.any_eq_true, Bool.and_eq_true,
            decide_eq_true_eq]
          constructor
          · rintro ⟨w, hw, hl, hs⟩
            exact Or.inr (Or.inr (Or.inr ⟨w, hw, hl, hs⟩))
          · rintro (hc | ⟨d', hd', a, ha, hac⟩ | hv | ⟨w, hw, hl, hs⟩)
            · exact absurd hc h1
            · injection hd' with hdd
              subst hdd
              exact absurd (List.any_eq_true.mpr ⟨a, ha, hac⟩) h2
            · exact absurd (List.any_eq_true.mpr hv) h3
            · exact ⟨w, hw, hl, hs⟩

theorem mention_check_characterization_witness :
    isTestMentionedInOriginal MEDICAL_DATA "hemoglobin" (some "hemoglobin 10") = true :=
  (mention_check_characterization MEDICAL_DATA "hemoglobin" "hemoglobin 10"
    (by decide)).mpr (Or.inl (by with_unfolding_all decide))

/-- C3, counterexample to the claim's "exactly when": the code accepts
`wbc` against the text `leukocyte` through its hard-coded common-variation
table, although neither the name, nor any catalog alias, nor any
fuzzy-similar token appears in the text. -/
theorem mention_check_spec_counterexample :
    isTestMentionedInOriginal MEDICAL_DATA "wbc" (some "leukocyte") = true ∧
    specTraceable MEDICAL_DATA "wbc" "leukocyte" = false := by
  with_unfolding_all decide

/-- C10: the validated records are a subsequence of the input list, in input
order — the validator never invents or reorders records. -/
theorem validated_tests_sublist (kb : KB) (tests : List TestRec)
    (text : Option String) :
    List.Sublist (validateTests kb tests text).validated_tests tests := by
  cases hh : runLoop kb text tests initValidation with
  | error p =>
    obtain ⟨t, stx⟩ := p
    unfold validateTests
    rw [hh]
    exact List.nil_sublist tests
  | ok st =>
    obtain ⟨s, hsub, hval⟩ := runLoop_ok_validated kb text tests initValidation st hh
    have hs : st.validated = s := by simpa [initValidation] using hval
    unfold validateTests
    rw [hh]
    dsimp only
    split_ifs <;> simpa [hs] using hsub

/-- Fields of the non-aborting verdict, independent of the status branch. -/
theorem validateTests_ok_fields {kb : KB} {tests : List TestRec}
    {text : Option String} {st : LoopState}
    (h : runLoop kb text tests initValidation = .ok st) :
    (validateTests kb tests text).confidence = st.confidence ∧
    (validateTests kb tests text).validated_tests = st.validated := by
  unfold validateTests
  rw [h]
  dsimp only
  split_ifs <;> exact ⟨rfl, rfl⟩

/-- The confidence of a test that passed structure and traceability is the
product of the four check factors. -/
theorem validateSingleTest_conf_formula {kb : KB} {t : TestRec}
    {text : Option String}
    (h1 : isValidTestStructure t = true)
    (h2 : isTestMentionedInOriginal kb t.name text = true) :
    (validateSingleTest kb t text).confidence =
      (if (normalizeTestName kb t.name).isNone then (7 : ℚ)/10 else 1) *
      (if isValueRealistic kb t then 1 else (3 : ℚ)/5) *
      (if isUnitValid kb t then 1 else (4 : ℚ)/5) *
      (if isStatusConsistent kb t then 1 else (9 : ℚ)/10) := by
  by_cases hk : (normalizeTestName kb t.name).isNone = true <;>
    by_cases hv : isValueRealistic kb t = true <;>
      by_cases hu : isUnitValid kb t = true <;>
        by_cases hs : isStatusConsistent kb t = true <;>
          simp [validateSingleTest, h1, h2, hk, hv, hu, hs]

/-- A test that passed structure and traceability with no warnings has
per-test confidence 1. -/
theorem validateSingleTest_no_warnings_conf {kb : KB} {t : TestRec}
    {text : Option String}
    (h1 : isValidTestStructure t = true)
    (h2 : isTestMentionedInOriginal kb t.name text = true)
    (hw : (validateSingleTest kb t text).warnings = []) :
    (validateSingleTest kb t text).confidence = 1 := by
  by_cases hk : (normalizeTestName kb t.name).isNone = true <;>
    by_cases hv : isValueRealistic kb t = true <;>
      by_cases hu : isUnitValid kb t = true <;>
        by_cases hs : isStatusConsistent kb t = true <;>
          simp_all [validateSingleTest, h1, h2]

/-- A test that passes every check yields no warnings, confidence 1 and no
rejection. -/
theorem validateSingleTest_all_pass {kb : KB} {t : TestRec} {text : Option String}
    (h1 : isValidTestStructure t = true)
    (h2 : isTestMentionedInOriginal kb t.name text = true)
    (hk : (normalizeTestName kb t.name).isNone = false)
    (hv : isValueRealistic kb t = true)
    (hu : isUnitValid kb t = true)
    (hs : isStatusConsistent kb t = true) :
    validateSingleTest kb t text = ⟨true, [], 1, none⟩ := by
  simp [validateSingleTest, h1, h2, hk, hv, hu, hs]

/-- C6 (amended): for a record that passes the structural and traceability
checks the remaining checks are warnings, never rejections: the record is
kept, and the batch confidence is multiplied by 0.7 when the name is not in
the alias map, 0.6 when the value fails the guardrail's own physical-limits
table (whose underscore keys do not cover every catalog entry — see the
counterexample), 0.8 when the unit is neither canonical nor a listed
variation, and 0.9 when the status disagrees with the reference range. -/
theorem warning_policy (kb : KB) (t : TestRec) (text : Option String)
    (h1 : isValidTestStructure t = true)
    (h2 : isTestMentionedInOriginal kb t.name text = true) :
    (validateSingleTest kb t text).isValid = true ∧
    (validateSingleTest kb t text).confidence =
      (if (normalizeTestName kb t.name).isNone then (7 : ℚ)/10 else 1) *
      (if isValueRealistic kb t then 1 else (3 : ℚ)/5) *
      (if isUnitValid kb t then 1 else (4 : ℚ)/5) *
      (if isStatusConsistent kb t then 1 else (9 : ℚ)/10) ∧
    (validateTests kb [t] text).validated_tests = [t] ∧
    (validateTests kb [t] text).confidence =
      (validateSingleTest kb t text).confidence := by
  have hrv : (validateSingleTest kb t text).isValid = true :=
    (validateSingleTest_ok h1 h2).1
  have hloop : runLoop kb text [t] initValidation =
      .ok (acceptState initValidation t (validateSingleTest kb t text)) := by
    simp [runLoop, hrv]
  have hfields := validateTests_ok_fields hloop
  refine ⟨hrv, validateSingleTest_conf_formula h1 h2, ?_, ?_⟩
  · rw [hfields.2, acceptState_validated]
    rfl
  · rw [hfields.1]
    unfold acceptState
    split_ifs with hw
    · show initValidation.confidence * _ = _
      simp [initValidation]
    · show initValidation.confidence = _
      rw [validateSingleTest_no_warnings_conf h1 h2 (not_ne_iff.mp hw)]
      rfl

theorem warning_policy_witness :
    (validateSingleTest MEDICAL_DATA ⟨"glucose", .vnum 5000, "mg/dL", "high"⟩
      (some "glucose 5000")).isValid = true ∧
    (validateSingleTest MEDICAL_DATA ⟨"glucose", .vnum 5000, "mg/dL", "high"⟩
      (some "glucose 5000")).confidence = (3 : ℚ)/5 ∧
    (validateTests MEDICAL_DATA [⟨"glucose", .vnum 5000, "mg/dL", "high"⟩]
      (some "glucose 5000")).validated_tests =
      [⟨"glucose", .vnum 5000, "mg/dL", "high"⟩] := by
  have h := warning_policy MEDICAL_DATA ⟨"glucose", .vnum 5000, "mg/dL", "high"⟩
    (some "glucose 5000") (by decide) (by with_unfolding_all decide)
  have hk : (normalizeTestName MEDICAL_DATA
      (⟨"glucose", .vnum 5000, "mg/dL", "high"⟩ : TestRec).name).isNone = false := by
    with_unfolding_all decide
  have hv : isValueRealistic MEDICAL_DATA
      ⟨"glucose", .vnum 5000, "mg/dL", "high"⟩ = false := by
    with_unfolding_all decide
  have hu : isUnitValid MEDICAL_DATA
      ⟨"glucose", .vnum 5000, "mg/dL", "high"⟩ = true := by
    with_unfolding_all decide
  have hs : isStatusConsistent MEDICAL_DATA
      ⟨"glucose", .vnum 5000, "mg/dL", "high"⟩ = true := by
    with_unfolding_all decide
  refine ⟨h.1, ?_, h.2.2.1⟩
  rw [h.2.1]
  simp only [hk, hv, hu, hs]
  norm_num

/-- C6, counterexample to "a value outside the catalog entry's physical
bounds multiplies batch confidence by 0.6": a platelet count of 5,000,000 is
far outside the catalog's physical limits `[0, 2000000]`, yet the guardrail
raises no warning and leaves the confidence at 1, because its own limits
table is keyed `platelet_count` while the normalized name is
`platelet count`. -/
theorem warning_policy_counterexample :
    (List.lookup "platelet count" MEDICAL_DATA).map KBEntry.physicalLimits =
      some (some (0, 2000000)) ∧
    ((2000000 : ℚ) < 5000000) ∧
    (validateSingleTest MEDICAL_DATA
      ⟨"platelet count", .vnum 5000000, "/uL", "high"⟩
      (some "platelet count 5000000 high")).warnings = [] ∧
    (validateSingleTest MEDICAL_DATA
      ⟨"platelet count", .vnum 5000000, "/uL", "high"⟩
      (some "platelet count 5000000 high")).confidence = 1 := by
  have he := @validateSingleTest_all_pass
    MEDICAL_DATA ⟨"platelet count", .vnum 5000000, "/uL", "high"⟩
    (some "platelet count 5000000 high")
    (by decide) (by with_unfolding_all decide) (by with_unfolding_all decide)
    (by with_unfolding_all decide) (by with_unfolding_all decide)
    (by with_unfolding_all decide)
  refine ⟨by decide, by norm_num, ?_, ?_⟩ <;> rw [he]

end GuardrailService

namespace MedicalTestNormalizer

/-- C2: for a record with a numeric value and a catalog reference range
`[low, high]` (so `low ≤ high`), the normalizer's recomputed status is
`low` below the range, `high` above it, and `normal` inside it, for every
OCR-provided status token — the recomputed status always wins. -/
theorem determineStatus_recomputed (v lo hi : ℚ) (providedStatus : Option String)
    (hlh : lo ≤ hi) :
    (v < lo → determineStatus v ⟨lo, hi⟩ providedStatus = "low") ∧
    (v > hi → determineStatus v ⟨lo, hi⟩ providedStatus = "high") ∧
    (lo ≤ v → v ≤ hi → determineStatus v ⟨lo, hi⟩ providedStatus = "normal") := by
  refine ⟨?_, ?_, ?_⟩
  · intro h
    cases providedStatus <;> simp [determineStatus, h]
  · intro h
    have hnl : ¬ v < lo := by linarith
    cases providedStatus <;> simp [determineStatus, hnl, h]
  · intro h1 h2
    have hnl : ¬ v < lo := not_lt.mpr h1
    have hnh : ¬ v > hi := not_lt.mpr h2
    cases providedStatus <;> simp [determineStatus, hnl, hnh]

theorem determineStatus_recomputed_witness :
    ((10 : ℚ) < 12 ∧ determineStatus 10 ⟨12, 15⟩ (some "high") = "low") ∧
    ((16 : ℚ) > 15 ∧ determineStatus 16 ⟨12, 15⟩ (some "low") = "high") ∧
    determineStatus 13 ⟨12, 15⟩ (some "high") = "normal" :=
  ⟨⟨by norm_num,
    (determineStatus_recomputed 10 12 15 (some "high") (by norm_num)).1 (by norm_num)⟩,
   ⟨by norm_num,
    (determineStatus_recomputed 16 12 15 (some "low") (by norm_num)).2.1 (by norm_num)⟩,
   (determineStatus_recomputed 13 12 15 (some "high") (by norm_num)).2.2
     (by norm_num) (by norm_num)⟩

end MedicalTestNormalizer

namespace SimilarityMatcher

/-- C8: the edit-distance similarity equals `1 - levenshtein / max(len1,
len2)` whenever some string is non-empty, equals 1 when both are empty, and
always lies in `[0, 1]`. -/
theorem levenshteinSimilarity_formula_and_bounds (s1 s2 : String) :
    (max s1.length s2.length ≠ 0 →
      levenshteinSimilarity s1 s2 =
        1 - (levenshteinDistance s1 s2 : ℚ) / (max s1.length s2.length : ℚ)) ∧
    (s1 = "" → s2 = "" → levenshteinSimilarity s1 s2 = 1) ∧
    0 ≤ levenshteinSimilarity s1 s2 ∧ levenshteinSimilarity s1 s2 ≤ 1 := by
  have hd : levenshteinDistance s1 s2 ≤ max s1.length s2.length :=
    levDistL_le_max s1.data s2.data
  by_cases hm : max s1.length s2.length = 0
  · have h1 : levenshteinSimilarity s1 s2 = 1 := by
      simp only [levenshteinSimilarity]
      rw [if_pos hm]
    refine ⟨fun hc => absurd hm hc, fun _ _ => h1, ?_, ?_⟩ <;> simp [h1]
  · have hmq : (0 : ℚ) < (max s1.length s2.length : ℚ) := by
      exact_mod_cast Nat.pos_of_ne_zero hm
    have hform : levenshteinSimilarity s1 s2 =
        1 - (levenshteinDistance s1 s2 : ℚ) / (max s1.length s2.length : ℚ) := by
      simp only [levenshteinSimilarity]
      rw [if_neg hm, Nat.cast_max]
    have hratio1 : (levenshteinDistance s1 s2 : ℚ) / (max s1.length s2.length : ℚ) ≤ 1 :=
      (div_le_one hmq).mpr (by exact_mod_cast hd)
    have hratio0 : (0 : ℚ) ≤ (levenshteinDistance s1 s2 : ℚ) / (max s1.length s2.length : ℚ) :=
      div_nonneg (by positivity) hmq.le
    refine ⟨fun _ => hform, ?_, ?_, ?_⟩
    · intro h1 h2
      subst h1; subst h2
      exact absurd rfl hm
    · rw [hform]; linarith
    · rw [hform]; linarith

theorem levenshteinSimilarity_witness :
    (max ("abc" : String).length ("abd" : String).length ≠ 0 ∧
      levenshteinSimilarity "abc" "abd" =
        1 - (levenshteinDistance "abc" "abd" : ℚ) / 3) ∧
    (("" : String) = "" ∧ levenshteinSimilarity "" "" = 1) := by
  have h := levenshteinSimilarity_formula_and_bounds "abc" "abd"
  have h0 := levenshteinSimilarity_formula_and_bounds "" ""
  exact ⟨⟨by decide, h.1 (by decide)⟩, ⟨rfl, h0.2.1 rfl rfl⟩⟩

set_option maxRecDepth 4000 in
/-- C5: a raw name that after trimming and case-folding equals a catalog
key, display name or alias resolves through the exact-match steps of the
cascade, with similarity 1.0 and tier `exact` — for every state of the
external NLP libraries. -/
theorem exact_match_dominance (nlp : NlpLibs) (raw : String)
    (h : lower raw.trim ∈ foldedCatalogNames MEDICAL_DATA) :
    ∃ m, findBestTestNameMatch nlp MEDICAL_DATA raw = some m ∧
      m.similarity = 1 ∧ m.confidence = "exact" := by
  have hkey : ∀ c ∈ foldedCatalogNames MEDICAL_DATA,
      (mapGet (testAliasesPairs MEDICAL_DATA) c).isSome ∨
        (List.lookup c MEDICAL_DATA).isSome := by decide
  have hraw : raw ≠ "" := by
    intro he
    rw [he] at h
    exact absurd h (by with_unfolding_all decide)
  cases hma : mapGet (testAliasesPairs MEDICAL_DATA) (lower raw.trim) with
  | some k =>
    exact ⟨⟨k, 1, "exact", some "exact_match"⟩,
      by simp [findBestTestNameMatch, hraw, hma], rfl, rfl⟩
  | none =>
    rcases hkey _ h with hs | hs
    · rw [hma] at hs
      exact absurd hs (by simp)
    · exact ⟨⟨lower raw.trim, 1, "exact", some "direct_lookup"⟩,
        by simp [findBestTestNameMatch, hraw, hma, hs], rfl, rfl⟩

theorem exact_match_dominance_witness :
    lower (" HGB " : String).trim ∈ foldedCatalogNames MEDICAL_DATA ∧
    ∃ m, findBestTestNameMatch nlpAbsent MEDICAL_DATA " HGB " = some m ∧
      m.similarity = 1 ∧ m.confidence = "exact" :=
  ⟨by with_unfolding_all decide,
   exact_match_dominance nlpAbsent " HGB " (by with_unfolding_all decide)⟩

/-- C4 (amended): when the name resolves and its catalog entry exists, the
unit never blocks the match: a missing unit yields the catalog's canonical
unit at similarity 1.0, tier `default`; a supplied unit that finds no match
or only a `low`-confidence one yields the canonical unit at similarity 0.8,
tier `assumed` (the claim had the two fallbacks swapped). -/
theorem unit_fallback_policy (nlp : NlpLibs) (kb : KB) (testName : String)
    (value : JSVal) (unit status : Option String) (nm : MatchResult)
    (data : KBEntry)
    (hn : findBestTestNameMatch nlp kb testName = some nm)
    (hd : List.lookup nm.matched kb = some data) :
    ∃ r, findBestTestMatch nlp kb testName value unit status = some r ∧
      (isTruthy unit = false → r.unitMatch = ⟨data.unit, 1, "default", none⟩) ∧
      (isTruthy unit = true →
        findBestUnitMatch nlp kb (unit.getD "") = none →
        r.unitMatch = ⟨data.unit, (4 : ℚ)/5, "assumed", none⟩) ∧
      (∀ um, isTruthy unit = true →
        findBestUnitMatch nlp kb (unit.getD "") = some um →
        um.confidence = "low" →
        r.unitMatch = ⟨data.unit, (4 : ℚ)/5, "assumed", none⟩) := by
  unfold findBestTestMatch
  rw [hn]
  dsimp only
  rw [hd]
  dsimp only
  refine ⟨_, rfl, ?_, ?_, ?_⟩
  · intro hu
    simp [hu]
  · intro hu hnone
    simp [hu, hnone]
  · intro um hu hsome hlow
    simp [hu, hsome, hlow]

set_option maxRecDepth 4000 in
theorem unit_fallback_policy_witness :
    (∃ r, findBestTestMatch nlpAbsent MEDICAL_DATA "hemoglobin" (.vnum 10)
        none none = some r ∧ r.unitMatch = ⟨"g/dL", 1, "default", none⟩) ∧
    (∃ r, findBestTestMatch nlpAbsent MEDICAL_DATA "hemoglobin" (.vnum 10)
        (some "zzz") none = some r ∧
      r.unitMatch = ⟨"g/dL", (4 : ℚ)/5, "assumed", none⟩) := by
  have hn : findBestTestNameMatch nlpAbsent MEDICAL_DATA "hemoglobin" =
      some ⟨"hemoglobin", 1, "exact", some "direct_lookup"⟩ := by
    with_unfolding_all decide
  have hd : List.lookup "hemoglobin" MEDICAL_DATA = some hemoglobinEntry := by
    decide
  constructor
  · obtain ⟨r, hr, hdef, _, _⟩ := unit_fallback_policy nlpAbsent MEDICAL_DATA
      "hemoglobin" (.vnum 10) none none _ _ hn hd
    exact ⟨r, hr, hdef rfl⟩
  · obtain ⟨r, hr, _, hassumed, _⟩ := unit_fallback_policy nlpAbsent MEDICAL_DATA
      "hemoglobin" (.vnum 10) (some "zzz") none _ _ hn hd
    exact ⟨r, hr, hassumed rfl (by with_unfolding_all decide)⟩

set_option maxRecDepth 4000 in
/-- C4, counterexample to the claim as stated: with no unit supplied the
composed match carries the canonical unit at similarity 1.0 and tier
`default` — not 0.8 / `assumed` as the claim says. -/
theorem unit_fallback_policy_counterexample :
    ((findBestTestMatch nlpAbsent MEDICAL_DATA "hemoglobin" (.vnum 10)
        none none).map
      (fun r => (r.unitMatch.matched, r.unitMatch.similarity,
        r.unitMatch.confidence))) = some ("g/dL", 1, "default") ∧
    ((findBestTestMatch nlpAbsent MEDICAL_DATA "hemoglobin" (.vnum 10)
        none none).map
      (fun r => (r.unitMatch.similarity, r.unitMatch.confidence))) ≠
      some ((4 : ℚ)/5, "assumed") := by
  constructor
  · with_unfolding_all decide
  · with_unfolding_all decide

end SimilarityMatcher

end MedRep
